/-
Verification of the nbfree notebook/script synchronizer
(src/nbfree/__init__.py).

The program keeps a Jupyter notebook (structured document) and a Python
script (flat document) synchronized.  This file shallowly embeds the
program: text is `List Char`, Python string primitives (`str.strip`,
`str.splitlines`, `str.split`, `str.startswith`/`endswith`) are modelled
directly, the content hash `hashlib.md5(json.dumps(sources)).hexdigest()`
is implemented bit-for-bit (MD5 over the UTF-8 encoding of the
`json.dumps` serialization), and the reconciliation decision procedure
`process_file_pair` plus the per-identity write step of `main` are pure
functions returning `Except`.
-/
import Mathlib

set_option maxRecDepth 20000
set_option maxHeartbeats 1000000

/-- Text is modelled as a list of characters (Python `str`). -/
abbrev Str := List Char

/-! ## Python string primitives -/

/-- Characters stripped by Python `str.strip()` (Unicode whitespace). -/
def isPySpace (c : Char) : Bool :=
  ([0x09, 0x0A, 0x0B, 0x0C, 0x0D, 0x1C, 0x1D, 0x1E, 0x1F, 0x20, 0x85, 0xA0,
    0x1680, 0x2000, 0x2001, 0x2002, 0x2003, 0x2004, 0x2005, 0x2006, 0x2007,
    0x2008, 0x2009, 0x200A, 0x2028, 0x2029, 0x202F, 0x205F, 0x3000] : List Nat).contains c.toNat

/-- Python `s.strip()`. -/
def pyStrip (s : Str) : Str :=
  ((s.dropWhile isPySpace).reverse.dropWhile isPySpace).reverse

/-- Line-boundary characters of Python `str.splitlines()`
(`\r\n` is additionally treated as a single boundary). -/
def isLineBoundary (c : Char) : Bool :=
  ([0x0A, 0x0B, 0x0C, 0x0D, 0x1C, 0x1D, 0x1E, 0x85, 0x2028, 0x2029] : List Nat).contains c.toNat

/-- Worker for `pySplitlines`; `acc` is the current line, reversed.
Fuelled to stay structurally recursive; with `fuel ≥ length + 1` the
fuel never runs out (every step consumes at least one character). -/
def pySplitlinesAux : Nat → Str → Str → List Str
  | 0, xs, acc => if (acc.reverse ++ xs).isEmpty then [] else [acc.reverse ++ xs]
  | _ + 1, [], acc => if acc.isEmpty then [] else [acc.reverse]
  | fuel + 1, c :: rest, acc =>
    if c = '\r' then
      match rest with
      | '\n' :: rest2 => acc.reverse :: pySplitlinesAux fuel rest2 []
      | _ => acc.reverse :: pySplitlinesAux fuel rest []
    else if isLineBoundary c then acc.reverse :: pySplitlinesAux fuel rest []
    else pySplitlinesAux fuel rest (c :: acc)

/-- Python `s.splitlines()`. -/
def pySplitlines (s : Str) : List Str := pySplitlinesAux (s.length + 1) s []

/-- Worker for `pySplitOn`, fuelled to stay structurally recursive.
With `fuel ≥ length + 1` and a nonempty separator the fuel never
runs out (every step consumes at least one character). -/
def splitOnCore : Nat → Str → Str → Str → List Str
  | 0, _, xs, acc => [acc.reverse ++ xs]
  | _ + 1, _, [], acc => [acc.reverse]
  | fuel + 1, sep, c :: rest, acc =>
    if sep.isPrefixOf (c :: rest) then
      acc.reverse :: splitOnCore fuel sep (List.drop sep.length (c :: rest)) []
    else
      splitOnCore fuel sep rest (c :: acc)

/-- Python `s.split(sep)` for a nonempty separator `sep`
(the program only ever splits on the constant `"# %%\n"`). -/
def pySplitOn (sep s : Str) : List Str := splitOnCore (s.length + 1) sep s []

/-! ## MD5 (`hashlib.md5(...).hexdigest()`) -/

/-- The 64 MD5 sine-derived round constants. -/
def KTbl : List Nat :=
  [0xd76aa478, 0xe8c7b756, 0x242070db, 0xc1bdceee,
   0xf57c0faf, 0x4787c62a, 0xa8304613, 0xfd469501,
   0x698098d8, 0x8b44f7af, 0xffff5bb1, 0x895cd7be,
   0x6b901122, 0xfd987193, 0xa679438e, 0x49b40821,
   0xf61e2562, 0xc040b340, 0x265e5a51, 0xe9b6c7aa,
   0xd62f105d, 0x02441453, 0xd8a1e681, 0xe7d3fbc8,
   0x21e1cde6, 0xc33707d6, 0xf4d50d87, 0x455a14ed,
   0xa9e3e905, 0xfcefa3f8, 0x676f02d9, 0x8d2a4c8a,
   0xfffa3942, 0x8771f681, 0x6d9d6122, 0xfde5380c,
   0xa4beea44, 0x4bdecfa9, 0xf6bb4b60, 0xbebfbc70,
   0x289b7ec6, 0xeaa127fa, 0xd4ef3085, 0x04881d05,
   0xd9d4d039, 0xe6db99e5, 0x1fa27cf8, 0xc4ac5665,
   0xf4292244, 0x432aff97, 0xab9423a7, 0xfc93a039,
   0x655b59c3, 0x8f0ccc92, 0xffeff47d, 0x85845dd1,
   0x6fa87e4f, 0xfe2ce6e0, 0xa3014314, 0x4e0811a1,
   0xf7537e82, 0xbd3af235, 0x2ad7d2bb, 0xeb86d391]

/-- The 64 MD5 per-step left-rotation amounts. -/
def STbl : List Nat :=
  [7, 12, 17, 22, 7, 12, 17, 22, 7, 12, 17, 22, 7, 12, 17, 22,
   5, 9, 14, 20, 5, 9, 14, 20, 5, 9, 14, 20, 5, 9, 14, 20,
   4, 11, 16, 23, 4, 11, 16, 23, 4, 11, 16, 23, 4, 11, 16, 23,
   6, 10, 15, 21, 6, 10, 15, 21, 6, 10, 15, 21, 6, 10, 15, 21]

/-- 32-bit left rotation (operands below `2 ^ 32`). -/
def rotl32 (x n : Nat) : Nat := ((x <<< n) ||| (x >>> (32 - n))) % 4294967296

/-- MD5 nonlinear round function for step `i`. -/
def md5F (i b c d : Nat) : Nat :=
  if i < 16 then (b &&& c) ||| ((b ^^^ 0xFFFFFFFF) &&& d)
  else if i < 32 then (d &&& b) ||| ((d ^^^ 0xFFFFFFFF) &&& c)
  else if i < 48 then b ^^^ c ^^^ d
  else c ^^^ (b ||| (d ^^^ 0xFFFFFFFF))

/-- MD5 message-word index for step `i`. -/
def md5G (i : Nat) : Nat :=
  if i < 16 then i
  else if i < 32 then (5 * i + 1) % 16
  else if i < 48 then (3 * i + 5) % 16
  else (7 * i) % 16

/-- Little-endian 32-bit word `i` of a 64-byte block. -/
def leWord (block : List Nat) (i : Nat) : Nat :=
  block.getD (4 * i) 0 + 256 * block.getD (4 * i + 1) 0 +
    65536 * block.getD (4 * i + 2) 0 + 16777216 * block.getD (4 * i + 3) 0

/-- One of the 64 MD5 steps, acting on the state `(a, b, c, d)`. -/
def md5Step (block : List Nat) (st : Nat × Nat × Nat × Nat) (i : Nat) : Nat × Nat × Nat × Nat :=
  let x := (st.1 + md5F i st.2.1 st.2.2.1 st.2.2.2 + KTbl.getD i 0 +
            leWord block (md5G i)) % 4294967296
  (st.2.2.2, (st.2.1 + rotl32 x (STbl.getD i 0)) % 4294967296, st.2.1, st.2.2.1)

/-- Process one 64-byte block of the padded message. -/
def md5Block (st : Nat × Nat × Nat × Nat) (block : List Nat) : Nat × Nat × Nat × Nat :=
  let r := (List.range 64).foldl (md5Step block) st
  ((st.1 + r.1) % 4294967296, (st.2.1 + r.2.1) % 4294967296,
   (st.2.2.1 + r.2.2.1) % 4294967296, (st.2.2.2 + r.2.2.2) % 4294967296)

/-- `n` as 8 little-endian bytes. -/
def le8 (n : Nat) : List Nat := (List.range 8).map (fun i => n / 256 ^ i % 256)

/-- `n` as 4 little-endian bytes. -/
def le4 (n : Nat) : List Nat := (List.range 4).map (fun i => n / 256 ^ i % 256)

/-- MD5 padding: `0x80`, zeros to 56 mod 64, then the bit length. -/
def md5pad (msg : List Nat) : List Nat :=
  msg ++ 0x80 :: List.replicate ((56 + 64 - ((msg.length + 1) % 64)) % 64) 0 ++
    le8 (8 * msg.length)

/-- Cut a byte list into 64-byte blocks (fuelled by the list length). -/
def chunksAux : Nat → List Nat → List (List Nat)
  | 0, _ => []
  | _ + 1, [] => []
  | fuel + 1, x :: rest => (x :: rest).take 64 :: chunksAux fuel ((x :: rest).drop 64)

/-- The 16-byte MD5 digest of a byte string. -/
def md5Digest (msg : List Nat) : List Nat :=
  let padded := md5pad msg
  let r := (chunksAux padded.length padded).foldl md5Block
    (0x67452301, 0xefcdab89, 0x98badcfe, 0x10325476)
  le4 r.1 ++ le4 r.2.1 ++ le4 r.2.2.1 ++ le4 r.2.2.2

/-- The sixteen lowercase hex digits. -/
def hexDigits : Str := ("0123456789abcdef").toList

/-- Hex digit for `n % 16`. -/
def hexChar (n : Nat) : Char := hexDigits.getD (n % 16) '0'

/-- Lowercase hex rendering of a byte string, two digits per byte. -/
def bytesToHex (bs : List Nat) : Str :=
  (bs.map (fun b => [hexChar (b / 16), hexChar (b % 16)])).flatten

/-- UTF-8 encoding of one character (Python `str.encode()`). -/
def utf8Bytes (c : Char) : List Nat :=
  let n := c.toNat
  if n < 0x80 then [n]
  else if n < 0x800 then [0xC0 + n / 0x40, 0x80 + n % 0x40]
  else if n < 0x10000 then [0xE0 + n / 0x1000, 0x80 + n / 0x40 % 0x40, 0x80 + n % 0x40]
  else [0xF0 + n / 0x40000, 0x80 + n / 0x1000 % 0x40, 0x80 + n / 0x40 % 0x40, 0x80 + n % 0x40]

/-- UTF-8 encoding of a string. -/
def utf8Encode (s : Str) : List Nat := (s.map utf8Bytes).flatten

/-- Python `hashlib.md5(s.encode()).hexdigest()`. -/
def pymd5hex (s : Str) : Str := bytesToHex (md5Digest (utf8Encode s))

/-- MD5 reference vector: the digest of the empty string. -/
theorem md5_vector_empty :
    pymd5hex (("").toList) = ("d41d8cd98f00b204e9800998ecf8427e").toList := by decide

/-- MD5 reference vector: the digest of "a". -/
theorem md5_vector_a :
    pymd5hex (("a").toList) = ("0cc175b9c0f1b6a831c399e269772661").toList := by decide

/-- MD5 reference vector: the digest of "abc". -/
theorem md5_vector_abc :
    pymd5hex (("abc").toList) = ("900150983cd24fb0d6963f7d28e17f72").toList := by decide

/-! ## `json.dumps` of a list of strings (Python defaults: `ensure_ascii`,
separator `", "`) -/

/-- A `\uXXXX` escape (`n < 0x10000`). -/
def uEsc4 (n : Nat) : Str :=
  '\\' :: 'u' :: [hexChar (n / 4096), hexChar (n / 256), hexChar (n / 16), hexChar n]

/-- `json.dumps` escaping of one character: printable ASCII other than the
quote and the backslash is kept, everything else is escaped
(`ensure_ascii=True`, astral characters as surrogate pairs). -/
def jsonEscapeChar (c : Char) : Str :=
  if c = '"' then ['\\', '"']
  else if c = '\\' then ['\\', '\\']
  else if c = '\x08' then ['\\', 'b']
  else if c = '\x0c' then ['\\', 'f']
  else if c = '\n' then ['\\', 'n']
  else if c = '\r' then ['\\', 'r']
  else if c = '\t' then ['\\', 't']
  else if c.toNat < 0x20 ∨ 0x7e < c.toNat then
    if c.toNat < 0x10000 then uEsc4 c.toNat
    else uEsc4 (0xD800 + (c.toNat - 0x10000) / 0x400) ++ uEsc4 (0xDC00 + (c.toNat - 0x10000) % 0x400)
  else [c]

/-- `json.dumps` of one string. -/
def jsonString (s : Str) : Str := '"' :: (s.map jsonEscapeChar).flatten ++ ['"']

/-- `json.dumps` of a list of strings. -/
def jsonDumpsList (xs : List Str) : Str :=
  '[' :: List.intercalate ([',', ' ']) (xs.map jsonString) ++ [']']

/-! ## Data model

A notebook cell is the discriminated variant built by `from_code_cells`
and consumed by `write_to_py` / `compute_hash`: markdown carries
`metadata` and `source`, code additionally `outputs` and
`execution_count`.  Outputs are opaque payloads (their content never
influences the program logic), so they are modelled as strings.
`nbformat.read` (version 4) joins multi-line sources, so `source` is one
string. -/

inductive Cell where
  | markdown (metadata : List (Str × Str)) (source : Str)
  | code (metadata : List (Str × Str)) (source : Str) (outputs : List Str)
      (execution_count : Option Int)
deriving DecidableEq

/-- The `source` field of a cell. -/
def Cell.source : Cell → Str
  | .markdown _ src => src
  | .code _ src _ _ => src

/-- Notebook-level metadata (the fields `from_code_cells` constructs). -/
structure NbMetadata where
  kernelspec_display_name : Str
  kernelspec_language : Str
  kernelspec_name : Str
  language_info_name : Str
  language_info_version : Str
deriving DecidableEq

/-- The fixed metadata synthesized by `from_code_cells`. -/
def defaultNbMetadata : NbMetadata :=
  ⟨("Python 3").toList, ("python").toList, ("python3").toList,
   ("python").toList, ("3.10").toList⟩

/-- The `nb_data` dictionary of a `NotebookFile` (the `path` attribute is
file-system identity and plays no role in the content logic). -/
structure NotebookData where
  cells : List Cell
  metadata : NbMetadata
  nbformat : Nat
  nbformat_minor : Nat
deriving DecidableEq

/-! ## The program (src/nbfree/__init__.py) -/

/-- The constant `HASH_PREFIX = "# %% NOTEBOOK_HASH="` of the source. -/
def HASH_MARK : Str := ("# %% NOTEBOOK_HASH=").toList

/-- The constant `HEADER_COMMENT = "# %%\n"` of the source. -/
def HEADER_COMMENT : Str := ("# %%\n").toList

/-- The markdown wrapping bracket `'\"\"\"'`. -/
def tripleQuote : Str := ['"', '"', '"']

/-- One cell of `NotebookFile.from_code_cells`: a chunk that starts and
ends with the triple quote becomes a markdown cell with only the quotes
removed (`raw_cell[3:-3]`), anything else a code cell. -/
def cellOfChunk (raw : Str) : Cell :=
  if tripleQuote.isPrefixOf raw && tripleQuote.isSuffixOf raw then
    Cell.markdown [] ((raw.drop 3).take (raw.length - 6))
  else
    Cell.code [] raw [] none

/-- `NotebookFile.from_code_cells`: notebook data built from raw chunks. -/
def from_code_cells (raw_cells : List Str) : NotebookData :=
  ⟨raw_cells.map cellOfChunk, defaultNbMetadata, 4, 4⟩

/-- `NotebookFile.compute_hash`:
`hashlib.md5(json.dumps([c["source"] for c in cells]).encode()).hexdigest()`. -/
def compute_hash (nb : NotebookData) : Str :=
  pymd5hex (jsonDumpsList (nb.cells.map Cell.source))

/-- The chunk `write_to_py` emits for one cell: markdown is wrapped as
`f'\"\"\"\n{source}\n\"\"\"'`, code is the raw source. -/
def chunkOfCell : Cell → Str
  | .markdown _ src => ('"' :: '"' :: '"' :: '\n' :: src) ++ ['\n', '"', '"', '"']
  | .code _ src _ _ => src

/-- The file content written by `NotebookFile.write_to_py`: the hash
line, then the chunks joined by `"\n# %%\n"`. -/
def write_to_py_content (nb : NotebookData) (hash : Str) : Str :=
  HASH_MARK ++ hash ++ '\n' :: List.intercalate ('\n' :: HEADER_COMMENT) (nb.cells.map chunkOfCell)

/-- `extract_hash_and_chunks`: strip the leading hash annotation if the
content starts with `HASH_PREFIX`, then split on `HEADER_COMMENT` and
strip each chunk. -/
def extract_hash_and_chunks (content : Str) : Option Str × List Str :=
  if HASH_MARK.isPrefixOf content then
    (some (((pySplitlines content).headD []).drop HASH_MARK.length),
     (pySplitOn HEADER_COMMENT (List.intercalate ['\n'] (pySplitlines content).tail)).map pyStrip)
  else
    (none, (pySplitOn HEADER_COMMENT content).map pyStrip)

/-- The fatal conditions of `process_file_pair` (`sys.exit` calls) and of
the `assert` that both files exist. -/
inductive ReconcileError where
  | unrecognizedFlatFile
  | conflict
  | assertionFailure
deriving DecidableEq

/-- The both-files-exist branch of `process_file_pair`.  The execution
collaborator `ep` (`ExecutePreprocessor` via `nb.execute`) is an
arbitrary function on notebook data. -/
def process_both (ep : NotebookData → NotebookData) (content : Str) (nb : NotebookData) :
    Except ReconcileError NotebookData :=
  Option.elim (extract_hash_and_chunks content).1
    (Except.error ReconcileError.unrecognizedFlatFile)
    (fun ref =>
      if ref = compute_hash nb ∧
          compute_hash nb = compute_hash (from_code_cells (extract_hash_and_chunks content).2) then
        Except.ok nb
      else if ref = compute_hash (from_code_cells (extract_hash_and_chunks content).2) ∧
          ref ≠ compute_hash nb then
        Except.ok nb
      else if ref = compute_hash nb ∧
          ref ≠ compute_hash (from_code_cells (extract_hash_and_chunks content).2) then
        Except.ok (ep (from_code_cells (extract_hash_and_chunks content).2))
      else
        Except.error ReconcileError.conflict)

/-- `process_file_pair`, with file presence and content as inputs: the
flat (`.py`) side as the loaded content string when present, the
structured (`.ipynb`) side as the loaded notebook data when present.
Returns the authoritative notebook data or the fatal condition. -/
def process_file_pair (ep : NotebookData → NotebookData) :
    Option Str → Option NotebookData → Except ReconcileError NotebookData
  | none, some nb => Except.ok nb
  | some content, none =>
      Except.ok (ep (from_code_cells (extract_hash_and_chunks content).2))
  | none, none => Except.error ReconcileError.assertionFailure
  | some content, some nb => process_both ep content nb

/-- One identity of `main`'s loop: reconcile, then write the structured
file (the authoritative notebook data) and the flat file
(`write_to_py` with the recomputed hash).  A fatal condition persists
nothing (`sys.exit` terminates before any write). -/
def run_identity (ep : NotebookData → NotebookData) (pyContent : Option Str)
    (nbData : Option NotebookData) : Except ReconcileError (NotebookData × Str) :=
  match process_file_pair ep pyContent nbData with
  | Except.error e => Except.error e
  | Except.ok nb => Except.ok (nb, write_to_py_content nb (compute_hash nb))

/-- A cell carrying no execution state: markdown with empty metadata, or
code with no outputs and no execution count. -/
def freshCell : Cell → Bool
  | .markdown metadata _ => metadata.isEmpty
  | .code _ _ outputs execution_count => outputs.isEmpty && execution_count.isNone

/-- Replace the outputs and execution count of a code cell, leaving
everything else (in particular every source) unchanged. -/
def setExecState : Cell → List Str → Option Int → Cell
  | .markdown metadata src, _, _ => .markdown metadata src
  | .code metadata src _ _, outs, ec => .code metadata src outs ec

/-- Sanity check: unannotated content yields no hash and one chunk. -/
theorem sanity_extract_plain :
    extract_hash_and_chunks (("a = 1").toList) = (none, [("a = 1").toList]) := by decide

/-- Sanity check: annotated two-chunk content parses as written. -/
theorem sanity_extract_annotated :
    extract_hash_and_chunks (("# %% NOTEBOOK_HASH=abc\nx\n# %%\ny").toList)
      = (some (("abc").toList), [("x").toList, ("y").toList]) := by decide

/-- Sanity check: a triple-quoted chunk becomes a markdown cell. -/
theorem sanity_markdown_chunk :
    (from_code_cells [("\"\"\"a\"\"\"").toList]).cells
      = [Cell.markdown [] (("a").toList)] := by decide

deriving instance DecidableEq for Except

/-! ## Supporting lemmas -/

theorem splitOnCore_ne_nil (fuel : Nat) (sep : Str) : ∀ xs acc : Str,
    splitOnCore fuel sep xs acc ≠ [] := by
  induction fuel with
  | zero => intro xs acc; simp [splitOnCore]
  | succ f ih =>
    intro xs acc
    cases xs with
    | nil => simp [splitOnCore]
    | cons c rest =>
      rw [splitOnCore]
      split
      · simp
      · exact ih rest (c :: acc)

theorem pySplitlinesAux_line (A : Str) : ∀ (B acc : Str) (fuel : Nat),
    A.length + 1 ≤ fuel → (∀ c ∈ A, isLineBoundary c = false) →
    pySplitlinesAux fuel (A ++ '\n' :: B) acc
      = (acc.reverse ++ A) :: pySplitlinesAux (fuel - (A.length + 1)) B [] := by
  induction A with
  | nil =>
    intro B acc fuel hf _
    match fuel, hf with
    | f + 1, _ =>
      simp only [List.nil_append, pySplitlinesAux]
      rw [if_neg (by decide), if_pos (by decide)]
      simp
  | cons a A ih =>
    intro B acc fuel hf hA
    match fuel, hf with
    | f + 1, hf =>
      have ha : isLineBoundary a = false := hA a (List.mem_cons_self a A)
      have har : ¬ a = '\r' := by
        intro h
        rw [h] at ha
        exact absurd ha (by decide)
      simp only [List.cons_append, pySplitlinesAux, List.append_eq]
      rw [if_neg har, if_neg (by rw [ha]; exact Bool.false_ne_true)]
      rw [ih B (a :: acc) f (by simp at hf ⊢; omega)
        (fun c hc => hA c (List.mem_cons_of_mem a hc))]
      have hfuel : f - (A.length + 1) = f + 1 - ((a :: A).length + 1) := by
        simp
      rw [hfuel]
      simp

theorem pySplitlines_cons (A B : Str) (hA : ∀ c ∈ A, isLineBoundary c = false) :
    pySplitlines (A ++ '\n' :: B) = A :: pySplitlines B := by
  unfold pySplitlines
  rw [pySplitlinesAux_line A B [] ((A ++ '\n' :: B).length + 1) (by simp) hA]
  have h2 : (A ++ '\n' :: B).length + 1 - (A.length + 1) = B.length + 1 := by
    simp
  rw [h2]
  simp

theorem hexChar_mem (n : Nat) : hexChar n ∈ hexDigits := by
  unfold hexChar
  have h : n % 16 < hexDigits.length := Nat.mod_lt n (by decide)
  rw [List.getD_eq_getElem hexDigits '0' h]
  exact List.getElem_mem h

theorem pymd5hex_not_boundary (s : Str) : ∀ c ∈ pymd5hex s, isLineBoundary c = false := by
  intro c hc
  unfold pymd5hex bytesToHex at hc
  rcases List.mem_flatten.mp hc with ⟨l, hl, hcl⟩
  rcases List.mem_map.mp hl with ⟨b, _, rfl⟩
  simp only [List.mem_cons, List.mem_singleton, List.not_mem_nil, or_false] at hcl
  have hmem : c ∈ hexDigits := by
    rcases hcl with rfl | rfl
    · exact hexChar_mem (b / 16)
    · exact hexChar_mem (b % 16)
  have hall : ∀ x ∈ hexDigits, isLineBoundary x = false := by decide
  exact hall c hmem

theorem extract_of_hash_line (hash body : Str)
    (hh : ∀ c ∈ hash, isLineBoundary c = false) :
    (extract_hash_and_chunks (HASH_MARK ++ hash ++ '\n' :: body)).1 = some hash := by
  have hA : ∀ c ∈ HASH_MARK ++ hash, isLineBoundary c = false := by
    intro c hc
    rcases List.mem_append.mp hc with h | h
    · have hmark : ∀ x ∈ HASH_MARK, isLineBoundary x = false := by decide
      exact hmark c h
    · exact hh c h
  have hlines : pySplitlines (HASH_MARK ++ hash ++ '\n' :: body)
      = (HASH_MARK ++ hash) :: pySplitlines body := pySplitlines_cons _ _ hA
  have hpre : HASH_MARK.isPrefixOf (HASH_MARK ++ hash ++ '\n' :: body) = true := by
    rw [ List.isPrefixOf_iff_prefix, List.append_assoc]
    exact List.prefix_append _ _
  unfold extract_hash_and_chunks
  rw [if_pos hpre, hlines]
  simp [List.drop_left]

/-! ## The claims -/

/-- Claim C2: the fingerprint depends only on the ordered sequence of
cell source fields — two documents with identical ordered sources hash
identically whatever their outputs, execution counts, cell types or
metadata, and in particular replacing only the outputs and execution
counts of a document's cells never changes its fingerprint. -/
theorem claim_C2 :
    (∀ d d' : NotebookData, d.cells.map Cell.source = d'.cells.map Cell.source →
        compute_hash d = compute_hash d') ∧
    (∀ (d : NotebookData) (f : Cell → List Str) (g : Cell → Option Int),
        compute_hash ⟨d.cells.map (fun c => setExecState c (f c) (g c)),
          d.metadata, d.nbformat, d.nbformat_minor⟩ = compute_hash d) := by
  constructor
  · intro d d' h
    unfold compute_hash
    rw [h]
  · intro d f g
    unfold compute_hash
    simp only [List.map_map]
    have hcomp : (Cell.source ∘ fun c => setExecState c (f c) (g c)) = Cell.source := by
      funext c
      cases c <;> rfl
    rw [hcomp]

/-- A code cell without execution state. -/
def outDocA : NotebookData := ⟨[Cell.code [] (("x").toList) [] none], defaultNbMetadata, 4, 4⟩

/-- The same code cell with an output and an execution count. -/
def outDocB : NotebookData :=
  ⟨[Cell.code [] (("x").toList) [("out").toList] (some 1)], defaultNbMetadata, 4, 4⟩

/-- Witness for C2: same source, different outputs, same fingerprint. -/
theorem claim_C2_witness :
    outDocA.cells.map Cell.source = outDocB.cells.map Cell.source ∧
    compute_hash outDocA = compute_hash outDocB :=
  ⟨by decide, claim_C2.1 outDocA outDocB (by decide)⟩

/-- Claim C3: when both representations exist, the stored reference
fingerprint is present, and it differs from both the structured
fingerprint and the flat-derived fingerprint (the two also differing
from each other), reconciliation fails with the Conflict condition and
persists nothing. -/
theorem claim_C3 (ep : NotebookData → NotebookData) (content : Str) (nb : NotebookData)
    (ref : Str) (href : (extract_hash_and_chunks content).1 = some ref)
    (h1 : ref ≠ compute_hash nb)
    (h2 : ref ≠ compute_hash (from_code_cells (extract_hash_and_chunks content).2))
    (_h3 : compute_hash nb ≠ compute_hash (from_code_cells (extract_hash_and_chunks content).2)) :
    run_identity ep (some content) (some nb) = Except.error ReconcileError.conflict := by
  unfold run_identity
  simp only [process_file_pair]
  unfold process_both
  rw [href]
  simp only [Option.elim]
  rw [if_neg (by rintro ⟨h, _⟩; exact h1 h),
      if_neg (by rintro ⟨h, _⟩; exact h2 h),
      if_neg (by rintro ⟨h, _⟩; exact h1 h)]

/-- A structured document with the single code cell `a`. -/
def nbA : NotebookData := from_code_cells [("a").toList]

/-- A flat file whose stored fingerprint `x` matches nothing. -/
def conflictContent : Str := ("# %% NOTEBOOK_HASH=x\nb").toList

/-- Witness for C3: reference hash `x`, structured cell `a`, flat cell
`b` — a genuine three-way mismatch ends in the Conflict condition. -/
theorem claim_C3_witness :
    (extract_hash_and_chunks conflictContent).1 = some ['x'] ∧
    run_identity (fun nb => nb) (some conflictContent) (some nbA)
      = Except.error ReconcileError.conflict :=
  ⟨by decide,
   claim_C3 (fun nb => nb) conflictContent nbA ['x'] (by decide) (by decide) (by decide) (by decide)⟩

/-- Claim C4: when both representations exist and the stored reference
fingerprint equals the structured document's fingerprint but differs
from the flat-derived one, the flat side is authoritative and the
flat-derived document is passed through the execution collaborator
before being returned as the authoritative structured document. -/
theorem claim_C4 (ep : NotebookData → NotebookData) (content : Str) (nb : NotebookData)
    (ref : Str) (href : (extract_hash_and_chunks content).1 = some ref)
    (hnb : ref = compute_hash nb)
    (hpy : ref ≠ compute_hash (from_code_cells (extract_hash_and_chunks content).2)) :
    process_file_pair ep (some content) (some nb)
      = Except.ok (ep (from_code_cells (extract_hash_and_chunks content).2)) := by
  simp only [process_file_pair]
  unfold process_both
  rw [href]
  simp only [Option.elim]
  rw [if_neg (by rintro ⟨_, h⟩; exact hpy (hnb.trans h)),
      if_neg (by rintro ⟨h, _⟩; exact hpy h),
      if_pos ⟨hnb, hpy⟩]

/-- A structured document with the single code cell `b`. -/
def nbB : NotebookData := from_code_cells [("b").toList]

/-- A flat file carrying the fingerprint of `nbB` but the cell `a`. -/
def c4content : Str := HASH_MARK ++ compute_hash nbB ++ '\n' :: (("a").toList)

/-- Witness for C4: the flat side changed, so it is executed and
returned. -/
theorem claim_C4_witness :
    (extract_hash_and_chunks c4content).1 = some (compute_hash nbB) ∧
    compute_hash nbB ≠ compute_hash (from_code_cells (extract_hash_and_chunks c4content).2) ∧
    process_file_pair (fun nb => nb) (some c4content) (some nbB)
      = Except.ok (from_code_cells (extract_hash_and_chunks c4content).2) :=
  ⟨by decide, by decide,
   claim_C4 (fun nb => nb) c4content nbB (compute_hash nbB) (by decide) rfl (by decide)⟩

/-- Claim C5: when both representations exist and the stored reference
fingerprint equals the flat-derived fingerprint but differs from the
structured one, reconciliation returns the loaded structured document
unchanged, for every execution collaborator (no execution happens). -/
theorem claim_C5 (ep : NotebookData → NotebookData) (content : Str) (nb : NotebookData)
    (ref : Str) (href : (extract_hash_and_chunks content).1 = some ref)
    (hpy : ref = compute_hash (from_code_cells (extract_hash_and_chunks content).2))
    (hnb : ref ≠ compute_hash nb) :
    process_file_pair ep (some content) (some nb) = Except.ok nb := by
  simp only [process_file_pair]
  unfold process_both
  rw [href]
  simp only [Option.elim]
  rw [if_neg (by rintro ⟨h, _⟩; exact hnb h),
      if_pos ⟨hpy, hnb⟩]

/-- A flat file carrying the fingerprint of code cell `a` and the cell
`a` itself (unchanged flat side). -/
def c5content : Str := HASH_MARK ++ compute_hash nbA ++ '\n' :: (("a").toList)

/-- Witness for C5: the structured side changed, so it wins as-is. -/
theorem claim_C5_witness :
    (extract_hash_and_chunks c5content).1 = some (compute_hash nbA) ∧
    compute_hash nbA = compute_hash (from_code_cells (extract_hash_and_chunks c5content).2) ∧
    compute_hash nbA ≠ compute_hash nbB ∧
    process_file_pair (fun nb => nb) (some c5content) (some nbB) = Except.ok nbB :=
  ⟨by decide, by decide, by decide,
   claim_C5 (fun nb => nb) c5content nbB (compute_hash nbA) (by decide) (by decide) (by decide)⟩

/-- Counterexample to C6 as stated: an identity with only a flat file
and no fingerprint annotation is not fatal — the file is converted,
executed and both representations are persisted. -/
theorem claim_C6_counterexample :
    (extract_hash_and_chunks (("a = 1").toList)).1 = none ∧
    run_identity (fun nb => nb) (some (("a = 1").toList)) none
      = Except.ok (from_code_cells [("a = 1").toList],
          write_to_py_content (from_code_cells [("a = 1").toList])
            (compute_hash (from_code_cells [("a = 1").toList]))) :=
  ⟨by decide, by decide⟩

/-- Claim C6 (amended: both representations must exist): when both
files exist and the flat file lacks the fingerprint annotation,
reconciliation fails with the UnrecognizedFlatFile condition and
persists nothing. -/
theorem claim_C6 (ep : NotebookData → NotebookData) (content : Str) (nb : NotebookData)
    (h : (extract_hash_and_chunks content).1 = none) :
    run_identity ep (some content) (some nb)
      = Except.error ReconcileError.unrecognizedFlatFile := by
  unfold run_identity
  simp only [process_file_pair]
  unfold process_both
  rw [h]
  rfl

/-- Witness for C6: an unannotated flat file beside a notebook is
fatal. -/
theorem claim_C6_witness :
    (extract_hash_and_chunks (("x").toList)).1 = none ∧
    run_identity (fun nb => nb) (some (("x").toList)) (some (from_code_cells [("y").toList]))
      = Except.error ReconcileError.unrecognizedFlatFile :=
  ⟨by decide,
   claim_C6 (fun nb => nb) (("x").toList) (from_code_cells [("y").toList]) (by decide)⟩

/-- Claim C7: with only a structured file present the loaded document is
returned as authoritative for every execution collaborator (no
execution), and the flat file then written for the identity embeds a
fingerprint equal to the structured document's fingerprint. -/
theorem claim_C7 (ep : NotebookData → NotebookData) (nb : NotebookData) :
    run_identity ep none (some nb) = Except.ok (nb, write_to_py_content nb (compute_hash nb)) ∧
    (extract_hash_and_chunks (write_to_py_content nb (compute_hash nb))).1
      = some (compute_hash nb) := by
  refine ⟨rfl, ?_⟩
  exact extract_of_hash_line (compute_hash nb)
    (List.intercalate ('\n' :: HEADER_COMMENT) (nb.cells.map chunkOfCell))
    (pymd5hex_not_boundary (jsonDumpsList (nb.cells.map Cell.source)))

/-- Claim C9: flat-to-structured conversion synthesizes no execution
state — every code cell it builds has no outputs and no execution
count, and every markdown cell has empty metadata. -/
theorem claim_C9 (raw_cells : List Str) :
    (from_code_cells raw_cells).cells.all freshCell = true := by
  simp only [from_code_cells, List.all_eq_true, List.mem_map]
  rintro c ⟨raw, _, rfl⟩
  unfold cellOfChunk
  split
  · rfl
  · rfl

/-- Claim C10: parsing never yields zero chunks, so the resulting
document never has zero cells; an empty flat file, or one holding only
the fingerprint annotation line, becomes exactly one code cell with
empty source. -/
theorem claim_C10 :
    (∀ content : Str, (extract_hash_and_chunks content).2 ≠ []) ∧
    (∀ content : Str, (from_code_cells (extract_hash_and_chunks content).2).cells ≠ []) ∧
    ((from_code_cells (extract_hash_and_chunks []).2).cells = [Cell.code [] [] [] none]) ∧
    ((from_code_cells (extract_hash_and_chunks (("# %% NOTEBOOK_HASH=abc\n").toList)).2).cells
      = [Cell.code [] [] [] none]) := by
  have h1 : ∀ content : Str, (extract_hash_and_chunks content).2 ≠ [] := by
    intro content
    unfold extract_hash_and_chunks
    split
    · intro h
      exact splitOnCore_ne_nil _ _ _ _ (List.map_eq_nil_iff.mp h)
    · intro h
      exact splitOnCore_ne_nil _ _ _ _ (List.map_eq_nil_iff.mp h)
  have h2 : ∀ content : Str, (from_code_cells (extract_hash_and_chunks content).2).cells ≠ [] := by
    intro content h
    exact h1 content (List.map_eq_nil_iff.mp h)
  exact ⟨h1, h2, by decide, by decide⟩

/-- A structured document with a single markdown cell `a`. -/
def mdDoc : NotebookData := ⟨[Cell.markdown [] (("a").toList)], defaultNbMetadata, 4, 4⟩

/-- Claim C1 fails on the code (code bug): the markdown cell `a`
contains neither the delimiter token nor the bracket token at its start
or end, yet the flat/structured round trip turns its source into
`"\na\n"` — `write_to_py` wraps markdown as triple quote, newline,
text, newline, triple quote, while `from_code_cells` removes only the
quotes — so the fingerprint changes. -/
theorem claim_C1_roundtrip_bug :
    (¬ ("# %%").toList <:+: ("a").toList) ∧
    (tripleQuote.isPrefixOf (("a").toList) = false) ∧
    (tripleQuote.isSuffixOf (("a").toList) = false) ∧
    ((from_code_cells (extract_hash_and_chunks (write_to_py_content mdDoc (compute_hash mdDoc))).2).cells
      = [Cell.markdown [] (("\na\n").toList)]) ∧
    compute_hash (from_code_cells
        (extract_hash_and_chunks (write_to_py_content mdDoc (compute_hash mdDoc))).2)
      ≠ compute_hash mdDoc :=
  ⟨by decide, by decide, by decide, by decide, by decide⟩

/-- A hand-synchronized flat file for `mdDoc`: its stored fingerprint,
its structured fingerprint and its flat-derived fingerprint coincide. -/
def mdFlat0 : Str := HASH_MARK ++ compute_hash mdDoc ++ '\n' :: (("\"\"\"a\"\"\"").toList)

/-- The flat file the first reconciliation run writes for `mdDoc`. -/
def mdFlat1 : Str := write_to_py_content mdDoc (compute_hash mdDoc)

/-- The structured document the second reconciliation run produces:
the markdown source has grown two newlines. -/
def mdDoc2 : NotebookData := from_code_cells [(("\"\"\"\na\n\"\"\"").toList)]

/-- The flat file the second reconciliation run writes. -/
def mdFlat2 : Str := write_to_py_content mdDoc2 (compute_hash mdDoc2)

/-- Claim C8 fails on the code (code bug): starting from a fully
synchronized state (all three fingerprints equal), the first run
rewrites the markdown chunk with extra newlines, so the second run
sees a changed flat side, re-executes, and writes different bytes to
both files. -/
theorem claim_C8_noop_bug :
    ((extract_hash_and_chunks mdFlat0).1 = some (compute_hash mdDoc)) ∧
    (compute_hash (from_code_cells (extract_hash_and_chunks mdFlat0).2) = compute_hash mdDoc) ∧
    (run_identity (fun nb => nb) (some mdFlat0) (some mdDoc) = Except.ok (mdDoc, mdFlat1)) ∧
    (run_identity (fun nb => nb) (some mdFlat1) (some mdDoc) = Except.ok (mdDoc2, mdFlat2)) ∧
    mdFlat2 ≠ mdFlat1 ∧ mdDoc2 ≠ mdDoc :=
  ⟨by decide, by decide, by decide, by decide, by decide, by decide⟩
